import Mathlib

/-!
Verification development for the Triage app (`src/streamlit_app.py`).

Shallow embedding conventions:
* Vital-sign readings are modelled as integers (`ℤ`). Every reading the
  app collects is an integer (`st.number_input` with integer bounds for
  heart rate and SpO2, an integer slider for pain), and every threshold
  and worsening comparison in the source compares against integer bounds,
  so integer arithmetic is exact for everything the claims talk about.
  The least-squares slope is kept as an exact rational (`ℚ`).
* The Python dict `vitals_history` is modelled as an association list
  `List (String × List ℤ)`; `dict[key]` lookup failure (Python `KeyError`)
  is modelled with `Except.error`.
* `np.polyfit(x, y, 1)` (ordinary least squares, degree 1) is modelled by
  the closed-form OLS slope over ℚ; Python round-half-to-even is modelled by `round2`.
-/

namespace Triage

/-- From the source: `METRICS = ["heart_rate", "spo2", "pain_score"]`. -/
def METRICS : List String := ["heart_rate", "spo2", "pain_score"]

/-- From the source: `SAFE_RANGES` (not used by the classifier pipeline,
kept for reference: note `spo2 : (95, 100)` and `pain_score : (0, 3)` are
documented *safe* bands). -/
def SAFE_RANGES : List (String × (ℤ × ℤ)) :=
  [("heart_rate", (60, 100)), ("spo2", (95, 100)), ("pain_score", (0, 3))]

/-- From the source: `RED_FLAG_THRESHOLDS`. -/
def RED_FLAG_THRESHOLDS : List (String × (ℤ × ℤ)) :=
  [("heart_rate", (40, 130)), ("spo2", (0, 90)), ("pain_score", (8, 10))]

/-- From the source, `calculate_slope`: returns `0.0` for fewer than two
points, otherwise the least-squares line slope of `np.polyfit(x, y, 1)`
with `x = 0, 1, ..., n-1`, written in closed form. -/
def calculate_slope (values : List ℤ) : ℚ :=
  if values.length < 2 then 0
  else
    let n : ℤ := values.length
    let xs : List ℤ := (List.range values.length).map (fun i => (i : ℤ))
    let sx := xs.sum
    let sy := values.sum
    let sxy := ((xs.zip values).map (fun p => p.1 * p.2)).sum
    let sxx := (xs.map (fun x => x * x)).sum
    ((n * sxy - sx * sy : ℤ) : ℚ) / ((n * sxx - sx * sx : ℤ) : ℚ)

/-- Round half to even on ℚ, as Python round does on the integer grid. -/
def roundHalfEven (q : ℚ) : ℤ :=
  let f := ⌊q⌋
  let frac := q - f
  if frac < 1/2 then f
  else if 1/2 < frac then f + 1
  else if f % 2 = 0 then f else f + 1

/-- Python `round(x, 2)`: round to two decimal places, half to even. -/
def round2 (q : ℚ) : ℚ := (roundHalfEven (q * 100) : ℚ) / 100

/-- Python `str.title()` character recursion: a letter following a
non-letter is uppercased, a letter following a letter is lowercased. -/
def titleChars : Bool → List Char → List Char
  | _, [] => []
  | prev, c :: cs => (if prev then c.toLower else c.toUpper) :: titleChars c.isAlpha cs

/-- From the source: replace each underscore with a space, then title-case
(the replace pattern is a single character, so it is a character map). -/
def displayName (metric : String) : String :=
  ⟨titleChars false (metric.data.map (fun c => if c = '_' then ' ' else c))⟩

/-- One row of the `metric_results` table built by the pipeline. -/
structure MetricRow where
  metricName : String
  trend : String
  critical_alert : String
  slope : ℚ
deriving DecidableEq, Repr

/-- The loop accumulator of `patient_monitoring_pipeline_integrated`:
`metric_results`, `worsening_count`, `red_flag_count`, `reasons`. -/
structure LoopState where
  metric_results : List MetricRow
  worsening_count : Nat
  red_flag_count : Nat
  reasons : List String
deriving DecidableEq, Repr

/-- The dict returned by `patient_monitoring_pipeline_integrated`. -/
structure TriageResult where
  metrics : List MetricRow
  overall_status : String
  worsening_count : Nat
  red_flag_count : Nat
  reasons : List String
deriving DecidableEq, Repr

/-- From the source (lines 66-73): the `is_worsening` if/elif chain. -/
def isWorsening (metric : String) (delta : ℤ) : Bool :=
  if metric = "spo2" ∧ delta < -2 then true
  else if metric = "pain_score" ∧ delta > 2 then true
  else if metric = "heart_rate" ∧ delta > 5 then true
  else false

/-- The body of the `for metric in METRICS` loop for a non-empty series
`b :: rest` after the `RED_FLAG_THRESHOLDS` lookup returned `(lo, hi)`:
computes `current`, `baseline`, `delta`, `slope`, the worsening and
red-flag booleans, and appends to the counters, reasons and rows exactly
in source order. -/
def stepFn (st : LoopState) (metric : String) (b : ℤ) (rest : List ℤ)
    (lo hi : ℤ) : LoopState :=
  let current := (b :: rest).getLast (List.cons_ne_nil b rest)
  let baseline := b
  let delta := current - baseline
  let slope := calculate_slope (b :: rest)
  let is_worsening := isWorsening metric delta
  let red_flag : Bool := current < lo || current > hi
  { metric_results := st.metric_results ++
      [{ metricName := displayName metric,
         trend := if is_worsening then "Worsening" else "Stable",
         critical_alert := if red_flag then "YES ☢️" else "No",
         slope := round2 slope }],
    worsening_count := st.worsening_count + (if is_worsening then 1 else 0),
    red_flag_count := st.red_flag_count + (if red_flag then 1 else 0),
    reasons := st.reasons ++
      (if is_worsening then [displayName metric ++ " is worsening over time."] else []) ++
      (if red_flag then ["CRITICAL: " ++ displayName metric ++ " crossed safety limits."] else []) }

/-- One iteration of the pipeline loop for `metric`:
`data = vitals_history[metric]` (a missing key is Python `KeyError`,
modelled as `Except.error`), `if not data: continue`, else the loop body
`stepFn` with the `RED_FLAG_THRESHOLDS` entry for the metric. -/
def processMetric (vitals_history : List (String × List ℤ)) (st : LoopState)
    (metric : String) : Except String LoopState :=
  match vitals_history.lookup metric with
  | none => Except.error ("KeyError: " ++ metric)
  | some [] => Except.ok st
  | some (b :: rest) =>
    match RED_FLAG_THRESHOLDS.lookup metric with
    | none => Except.error ("KeyError: " ++ metric)
    | some (lo, hi) => Except.ok (stepFn st metric b rest lo hi)

/-- The `for metric in METRICS` loop, threading the accumulator left to
right; an error aborts (Python would raise out of the function). -/
def processMetrics (vitals_history : List (String × List ℤ)) :
    List String → LoopState → Except String LoopState
  | [], st => Except.ok st
  | m :: rest, st =>
    match processMetric vitals_history st m with
    | Except.error e => Except.error e
    | Except.ok st2 => processMetrics vitals_history rest st2

/-- From the source: `patient_monitoring_pipeline_integrated`. Runs the
loop from the empty accumulator and builds the result dict with
`overall_status = "RED_FLAG" if (red_flag_count >= 1 or worsening_count >= 1)
else "MONITOR"`. -/
def patient_monitoring_pipeline_integrated (vitals_history : List (String × List ℤ)) :
    Except String TriageResult :=
  match processMetrics vitals_history METRICS ⟨[], 0, 0, []⟩ with
  | Except.error e => Except.error e
  | Except.ok st =>
    Except.ok
      { metrics := st.metric_results,
        overall_status :=
          if st.red_flag_count ≥ 1 ∨ st.worsening_count ≥ 1 then "RED_FLAG" else "MONITOR",
        worsening_count := st.worsening_count,
        red_flag_count := st.red_flag_count,
        reasons := st.reasons }

/-- The standard three-key vitals history, as initialised by the app
(`st.session_state.data["vitals_history"]`). -/
def vh3 (hr s p : List ℤ) : List (String × List ℤ) :=
  [("heart_rate", hr), ("spo2", s), ("pain_score", p)]

/-- Appending one reading `v` to the series of metric `m`, as
`st.session_state.data["vitals_history"][m].append(v)` does. -/
def updateMetric (vh : List (String × List ℤ)) (m : String) (v : ℤ) :
    List (String × List ℤ) :=
  vh.map (fun e => if e.1 = m then (e.1, e.2 ++ [v]) else e)

/-- The series stored for metric `m` (empty if the key is absent). -/
def seriesOf (vh : List (String × List ℤ)) (m : String) : List ℤ :=
  (vh.lookup m).getD []

/-- `delta = data[-1] - data[0]` of a series (0 for the empty series,
which the pipeline skips). -/
def deltaOf (l : List ℤ) : ℤ :=
  match l with
  | [] => 0
  | b :: rest => (b :: rest).getLast (List.cons_ne_nil b rest) - b

/-- The contribution of one metric series to `worsening_count`: an empty
series is skipped, a non-empty one contributes 1 exactly when the
worsening rule fires on its delta. -/
def wContrib (m : String) (l : List ℤ) : Nat :=
  match l with
  | [] => 0
  | b :: rest => if isWorsening m (deltaOf (b :: rest)) then 1 else 0


/-- Session-state initialisation (source lines 114-126): the `data` dict
created once per session, with default patient info, safety answers,
empty vitals series, context and photo. -/
structure SessionData where
  name : String
  age : String
  airway : String
  bleed : String
  vitals_history : List (String × List ℤ)
  worsening : String
  photo : Option String
  main_symptom : String
deriving DecidableEq, Repr

/-- The initial `st.session_state.data` value from source lines 118-126. -/
def init_data : SessionData :=
  { name := "Anonymous", age := "N/A", airway := "No", bleed := "No",
    vitals_history := vh3 [] [] [], worsening := "No", photo := none,
    main_symptom := "Wound/Skin" }

/-- The ambient session state: `current_page`, `step` and `data`. -/
structure SessionState where
  current_page : String
  step : Nat
  data : SessionData
deriving DecidableEq, Repr

/-- The Finish button handler at the Summary stage (source lines 284-287):
it sets `step = 0` and `current_page = "Home"` and nothing else. -/
def finish_button (s : SessionState) : SessionState :=
  { s with step := 0, current_page := "Home" }

/-- The simulated encounter loaded by the Hourly Checkup button
(source lines 150-156). -/
def sim_data : SessionData :=
  { name := "Simulated Patient", age := "45", airway := "No", bleed := "No",
    vitals_history := vh3 [75, 82, 95, 110, 125, 135] [98, 97, 95, 92, 89, 87] [2, 3, 5, 7, 8, 9],
    worsening := "No", photo := none, main_symptom := "Breathing Issue" }

/-- Claim C9: for every input sequence with fewer than 2 elements,
`calculate_slope` returns exactly `0.0`. -/
theorem C9_slope_short_series (values : List ℤ) (h : values.length < 2) :
    calculate_slope values = 0 := by
  unfold calculate_slope
  rw [if_pos h]

/-- Witness for C9 at the concrete input `[]`. -/
theorem C9_slope_short_series_witness :
    ([] : List ℤ).length < 2 ∧ calculate_slope [] = 0 :=
  ⟨by decide, C9_slope_short_series [] (by decide)⟩

/-- Claim C1 is refuted by the code: on `heart_rate=[72,74]`, `spo2=[98,98]`,
`pain_score=[1,1]` the pipeline returns `RED_FLAG` with `red_flag_count = 2`
and two reasons, not `MONITOR` with empty reasons: the red-flag check
`current < lo or current > hi` fires for spo2 98 (because 98 > 90, the
upper bound of the stored range (0, 90)) and for pain 1 (because 1 < 8,
the lower bound of the stored range (8, 10)). This theorem evaluates the
embedded pipeline at that input. -/
theorem C1_red_flag_inversion_eval :
    (patient_monitoring_pipeline_integrated (vh3 [72, 74] [98, 98] [1, 1])).map
      (fun r => (r.overall_status, r.worsening_count, r.red_flag_count, r.reasons)) =
    Except.ok ("RED_FLAG", 0, 2,
      ["CRITICAL: Spo2 crossed safety limits.",
       "CRITICAL: Pain Score crossed safety limits."]) := rfl

/-- Claim C2 is refuted by the code for spo2 and pain_score: with latest
readings `heart_rate 70, spo2 98, pain 9` only spo2 is red-flagged (98 > 90),
although the claim says spo2 98 is safe and pain 9 is flagged; with latest
readings `heart_rate 70, spo2 87, pain 1` only pain is red-flagged (1 < 8),
although the claim says spo2 87 is flagged and pain 1 is safe. This theorem
evaluates the embedded pipeline at both inputs. -/
theorem C2_red_flag_boundary_eval :
    (patient_monitoring_pipeline_integrated (vh3 [70] [98] [9])).map
        (fun r => (r.red_flag_count, r.reasons)) =
      Except.ok (1, ["CRITICAL: Spo2 crossed safety limits."]) ∧
    (patient_monitoring_pipeline_integrated (vh3 [70] [87] [1])).map
        (fun r => (r.red_flag_count, r.reasons)) =
      Except.ok (1, ["CRITICAL: Pain Score crossed safety limits."]) :=
  ⟨rfl, rfl⟩

/-- Claim C3 is refuted by the code: on the simulated deteriorating
history all three metrics are worsening, but `red_flag_count` is 1, not 3:
only heart_rate 135 trips the check (135 > 130); spo2 87 does not
(87 is inside the stored range (0, 90)) and pain 9 does not (9 is inside
the stored range (8, 10)). This theorem evaluates the embedded pipeline
at that input. -/
theorem C3_simulation_eval :
    (patient_monitoring_pipeline_integrated
        (vh3 [75, 82, 95, 110, 125, 135] [98, 97, 95, 92, 89, 87] [2, 3, 5, 7, 8, 9])).map
      (fun r => (r.overall_status, r.worsening_count, r.red_flag_count)) =
    Except.ok ("RED_FLAG", 3, 1) := rfl

/-- Counterexample to claim C6: a vitals history missing the `spo2` key is
not silently skipped; the pipeline raises (Python `KeyError`, modelled as
`Except.error`). -/
theorem C6_absent_metric_keyerror :
    patient_monitoring_pipeline_integrated [("heart_rate", [72]), ("pain_score", [1])] =
      Except.error "KeyError: spo2" := rfl

/-- Claim C6 as amended: a monitored metric that is present with an empty
series is silently skipped by the classifier loop — the run over the
remaining metrics is unchanged, so the empty metric contributes nothing to
the counts, reasons or per-metric rows (a metric absent from the input
instead raises a KeyError). -/
theorem C6_empty_series_skipped (vh : List (String × List ℤ)) (metric : String)
    (rest : List String) (st : LoopState) (h : vh.lookup metric = some []) :
    processMetrics vh (metric :: rest) st = processMetrics vh rest st := by
  simp [processMetrics, processMetric, h]

/-- Witness for the amended C6 at a concrete input. -/
theorem C6_empty_series_skipped_witness :
    processMetrics [("spo2", ([] : List ℤ))] ["spo2"] ⟨[], 0, 0, []⟩ =
      processMetrics [("spo2", ([] : List ℤ))] [] ⟨[], 0, 0, []⟩ :=
  C6_empty_series_skipped [("spo2", [])] "spo2" [] ⟨[], 0, 0, []⟩ rfl

/-- Counterexample to claim C8: the Finish handler does not clear the
encounter state. Starting from the Summary stage with the simulated
encounter loaded, Finish returns to step 0 on the Home page but leaves
`data` untouched, and that data differs from the initial encounter state. -/
theorem C8_finish_not_cleared :
    (finish_button ⟨"Patient Triage", 5, sim_data⟩).data = sim_data ∧
      sim_data ≠ init_data := by
  exact ⟨rfl, by decide⟩

/-- Claim C8 as amended: the Finish action resets only the workflow
position — `step` becomes 0 (Registration) and `current_page` becomes
Home — while the whole encounter `data` (patient info, safety answers,
vitals history, context, photo) is carried forward unchanged. -/
theorem C8_finish_preserves_data (s : SessionState) :
    finish_button s = { current_page := "Home", step := 0, data := s.data } := rfl

/-- The loop body keeps `len(reasons) = worsening_count + red_flag_count`:
each fired rule appends exactly one reason and bumps exactly one counter. -/
lemma stepFn_reason_invariant (st : LoopState) (m : String) (b : ℤ) (rest : List ℤ)
    (lo hi : ℤ) (hP : st.reasons.length = st.worsening_count + st.red_flag_count) :
    (stepFn st m b rest lo hi).reasons.length =
      (stepFn st m b rest lo hi).worsening_count + (stepFn st m b rest lo hi).red_flag_count := by
  simp only [stepFn, List.length_append, apply_ite List.length, List.length_singleton,
    List.length_nil]
  omega

/-- One loop iteration preserves the reasons-count invariant. -/
lemma processMetric_reason_invariant (vh : List (String × List ℤ)) (st : LoopState)
    (m : String) (st2 : LoopState) (h : processMetric vh st m = Except.ok st2)
    (hP : st.reasons.length = st.worsening_count + st.red_flag_count) :
    st2.reasons.length = st2.worsening_count + st2.red_flag_count := by
  unfold processMetric at h
  cases hl : vh.lookup m with
  | none => rw [hl] at h; simp at h
  | some data =>
    rw [hl] at h
    cases data with
    | nil =>
      simp only [Except.ok.injEq] at h
      subst h
      exact hP
    | cons b rest =>
      cases hth : RED_FLAG_THRESHOLDS.lookup m with
      | none => rw [hth] at h; simp at h
      | some pr =>
        obtain ⟨lo, hi⟩ := pr
        rw [hth] at h
        simp only [Except.ok.injEq] at h
        subst h
        exact stepFn_reason_invariant st m b rest lo hi hP

/-- The whole loop preserves the reasons-count invariant. -/
lemma processMetrics_reason_invariant (vh : List (String × List ℤ)) :
    ∀ (ms : List String) (st st2 : LoopState),
      processMetrics vh ms st = Except.ok st2 →
      st.reasons.length = st.worsening_count + st.red_flag_count →
      st2.reasons.length = st2.worsening_count + st2.red_flag_count := by
  intro ms
  induction ms with
  | nil =>
    intro st st2 h hP
    simp only [processMetrics, Except.ok.injEq] at h
    subst h
    exact hP
  | cons m rest ih =>
    intro st st2 h hP
    simp only [processMetrics] at h
    cases hm : processMetric vh st m with
    | error e => rw [hm] at h; simp at h
    | ok st1 =>
      rw [hm] at h
      exact ih st1 st2 h (processMetric_reason_invariant vh st m st1 hm hP)

/-- Claim C4: for every classifier input on which the pipeline returns a
result, `overall_status` is `RED_FLAG` iff `red_flag_count >= 1` or
`worsening_count >= 1`, and `MONITOR` otherwise; in particular a single
worsening trend with no hard-limit breach already yields `RED_FLAG`. -/
theorem C4_overall_status_iff (vh : List (String × List ℤ)) (r : TriageResult)
    (h : patient_monitoring_pipeline_integrated vh = Except.ok r) :
    (r.overall_status = "RED_FLAG" ↔ (r.red_flag_count ≥ 1 ∨ r.worsening_count ≥ 1)) ∧
      (r.overall_status = "MONITOR" ↔ ¬(r.red_flag_count ≥ 1 ∨ r.worsening_count ≥ 1)) := by
  unfold patient_monitoring_pipeline_integrated at h
  cases hms : processMetrics vh METRICS ⟨[], 0, 0, []⟩ with
  | error e => rw [hms] at h; simp at h
  | ok st =>
    rw [hms] at h
    simp only [Except.ok.injEq] at h
    subst h
    by_cases hc : st.red_flag_count ≥ 1 ∨ st.worsening_count ≥ 1 <;> simp [hc]

/-- Witness for C4 at a concrete input (all-empty series). -/
theorem C4_overall_status_iff_witness :
    ((TriageResult.mk [] "MONITOR" 0 0 []).overall_status = "RED_FLAG" ↔
        ((TriageResult.mk [] "MONITOR" 0 0 []).red_flag_count ≥ 1 ∨
          (TriageResult.mk [] "MONITOR" 0 0 []).worsening_count ≥ 1)) ∧
      ((TriageResult.mk [] "MONITOR" 0 0 []).overall_status = "MONITOR" ↔
        ¬((TriageResult.mk [] "MONITOR" 0 0 []).red_flag_count ≥ 1 ∨
          (TriageResult.mk [] "MONITOR" 0 0 []).worsening_count ≥ 1)) :=
  C4_overall_status_iff (vh3 [] [] []) (TriageResult.mk [] "MONITOR" 0 0 []) rfl

/-- Claim C5: the worsening flag is true exactly under the per-metric rule
on the delta (spo2 iff delta < -2, pain_score iff delta > 2, heart_rate
iff delta > 5, and never for any other metric name), and the pipeline loop
body counts one worsening metric exactly when that flag holds on
`delta = last reading - first reading`. -/
theorem C5_worsening_rule (metric : String) (delta : ℤ) :
    (isWorsening metric delta = true ↔
      ((metric = "spo2" ∧ delta < -2) ∨ (metric = "pain_score" ∧ delta > 2) ∨
        (metric = "heart_rate" ∧ delta > 5))) ∧
    ∀ (st : LoopState) (b : ℤ) (rest : List ℤ) (lo hi : ℤ),
      (stepFn st metric b rest lo hi).worsening_count =
        st.worsening_count + (if isWorsening metric (deltaOf (b :: rest)) then 1 else 0) := by
  constructor
  · unfold isWorsening
    split_ifs with h1 h2 h3
    · simp [h1]
    · simp [h2]
    · simp [h3]
    · simp [h1, h2, h3]
  · intro st b rest lo hi
    rfl

/-- Claim C10: whenever the pipeline returns a result, the reasons list
has exactly `worsening_count + red_flag_count` entries, and it is empty
iff `overall_status = "MONITOR"`. -/
theorem C10_reasons_length (vh : List (String × List ℤ)) (r : TriageResult)
    (h : patient_monitoring_pipeline_integrated vh = Except.ok r) :
    r.reasons.length = r.worsening_count + r.red_flag_count ∧
      (r.reasons = [] ↔ r.overall_status = "MONITOR") := by
  unfold patient_monitoring_pipeline_integrated at h
  cases hms : processMetrics vh METRICS ⟨[], 0, 0, []⟩ with
  | error e => rw [hms] at h; simp at h
  | ok st =>
    rw [hms] at h
    simp only [Except.ok.injEq] at h
    subst h
    have hP := processMetrics_reason_invariant vh METRICS ⟨[], 0, 0, []⟩ st hms (by simp)
    refine ⟨hP, ?_⟩
    by_cases hc : st.red_flag_count ≥ 1 ∨ st.worsening_count ≥ 1
    · simp only [if_pos hc]
      constructor
      · intro he
        rw [he] at hP
        simp at hP
        omega
      · intro hstr
        exact absurd hstr (by decide)
    · simp only [if_neg hc]
      constructor
      · intro _
        trivial
      · intro _
        have h0 : st.reasons.length = 0 := by omega
        exact List.length_eq_zero.mp h0

/-- Witness for C10 at a concrete input (all-empty series). -/
theorem C10_reasons_length_witness :
    (TriageResult.mk [] "MONITOR" 0 0 []).reasons.length =
        (TriageResult.mk [] "MONITOR" 0 0 []).worsening_count +
          (TriageResult.mk [] "MONITOR" 0 0 []).red_flag_count ∧
      ((TriageResult.mk [] "MONITOR" 0 0 []).reasons = [] ↔
        (TriageResult.mk [] "MONITOR" 0 0 []).overall_status = "MONITOR") :=
  C10_reasons_length (vh3 [] [] []) (TriageResult.mk [] "MONITOR" 0 0 []) rfl

/-- One loop iteration adds exactly the worsening contribution of the
processed series to `worsening_count`. -/
lemma processMetric_wcount (vh : List (String × List ℤ)) (st : LoopState)
    (m : String) (st2 : LoopState) (hm : m ∈ METRICS)
    (h : processMetric vh st m = Except.ok st2) :
    st2.worsening_count = st.worsening_count + wContrib m (seriesOf vh m) := by
  have hth : ∃ pr, RED_FLAG_THRESHOLDS.lookup m = some pr := by
    simp only [METRICS, List.mem_cons, List.mem_singleton, List.not_mem_nil, or_false] at hm
    rcases hm with rfl | rfl | rfl <;> exact ⟨_, rfl⟩
  obtain ⟨⟨lo, hi⟩, hth⟩ := hth
  unfold processMetric at h
  cases hl : vh.lookup m with
  | none => rw [hl] at h; simp at h
  | some data =>
    rw [hl] at h
    cases data with
    | nil =>
      simp only [Except.ok.injEq] at h
      subst h
      simp [seriesOf, hl, wContrib]
    | cons b rest =>
      rw [hth] at h
      simp only [Except.ok.injEq] at h
      subst h
      simp only [seriesOf, hl, Option.getD_some, wContrib]
      rfl

/-- The worsening count of a pipeline run over the standard three metrics
is the sum of the three per-series contributions. -/
lemma pipeline_wcount (vh : List (String × List ℤ)) (w : Nat)
    (h : (patient_monitoring_pipeline_integrated vh).map TriageResult.worsening_count =
      Except.ok w) :
    w = wContrib "heart_rate" (seriesOf vh "heart_rate") +
        wContrib "spo2" (seriesOf vh "spo2") +
        wContrib "pain_score" (seriesOf vh "pain_score") := by
  unfold patient_monitoring_pipeline_integrated at h
  cases hms : processMetrics vh METRICS ⟨[], 0, 0, []⟩ with
  | error e => rw [hms] at h; simp [Except.map] at h
  | ok st =>
    rw [hms] at h
    simp only [Except.map, Except.ok.injEq] at h
    subst h
    simp only [METRICS, processMetrics] at hms
    cases h1 : processMetric vh ⟨[], 0, 0, []⟩ "heart_rate" with
    | error e => rw [h1] at hms; simp at hms
    | ok s1 =>
      rw [h1] at hms
      dsimp only at hms
      cases h2 : processMetric vh s1 "spo2" with
      | error e => rw [h2] at hms; simp at hms
      | ok s2 =>
        rw [h2] at hms
        dsimp only at hms
        cases h3 : processMetric vh s2 "pain_score" with
        | error e => rw [h3] at hms; simp at hms
        | ok s3 =>
          rw [h3] at hms
          simp only [Except.ok.injEq] at hms
          subst hms
          have w1 := processMetric_wcount vh ⟨[], 0, 0, []⟩ "heart_rate" s1 (by decide) h1
          have w2 := processMetric_wcount vh s1 "spo2" s2 (by decide) h2
          have w3 := processMetric_wcount vh s2 "pain_score" s3 (by decide) h3
          simp only at w1
          omega

/-- Counterexample to claim C7: appending the reading 41 to the
heart-rate series `[35]` pushes the heart-rate delta to 6, beyond its
worsening threshold 5, yet `red_flag_count` strictly decreases (from 3 to
2) because the new latest value 41 is back inside the stored range
(40, 130); so "neither count decreases" fails. (`worsening_count` does
rise from 0 to 1.) -/
theorem C7_monotonicity_counterexample :
    updateMetric (vh3 [35] [98] [1]) "heart_rate" 41 = vh3 [35, 41] [98] [1] ∧
    isWorsening "heart_rate" (deltaOf (seriesOf (vh3 [35] [98] [1]) "heart_rate" ++ [41])) =
      true ∧
    (patient_monitoring_pipeline_integrated (vh3 [35] [98] [1])).map
      (fun r => (r.worsening_count, r.red_flag_count)) = Except.ok (0, 3) ∧
    (patient_monitoring_pipeline_integrated (vh3 [35, 41] [98] [1])).map
      (fun r => (r.worsening_count, r.red_flag_count)) = Except.ok (1, 2) :=
  ⟨rfl, rfl, rfl, rfl⟩

/-- Claim C7 as amended: on a vitals history with the three monitored
keys, appending one reading that pushes a metric from not-worsening to
worsening (its delta crosses the worsening threshold) strictly increases
`worsening_count`; `red_flag_count` however may decrease, so only the
worsening count is monotone here. -/
theorem C7_append_increases_worsening (hr s p : List ℤ) (m : String) (v : ℤ)
    (w w2 : Nat) (hm : m ∈ METRICS)
    (h1 : (patient_monitoring_pipeline_integrated (vh3 hr s p)).map
      TriageResult.worsening_count = Except.ok w)
    (h2 : (patient_monitoring_pipeline_integrated (updateMetric (vh3 hr s p) m v)).map
      TriageResult.worsening_count = Except.ok w2)
    (hafter : isWorsening m (deltaOf (seriesOf (vh3 hr s p) m ++ [v])) = true)
    (hbefore : isWorsening m (deltaOf (seriesOf (vh3 hr s p) m)) = false) :
    w < w2 := by
  have e1 := pipeline_wcount _ _ h1
  simp only [METRICS, List.mem_cons, List.mem_singleton, List.not_mem_nil, or_false] at hm
  rcases hm with rfl | rfl | rfl
  · rw [show updateMetric (vh3 hr s p) "heart_rate" v = vh3 (hr ++ [v]) s p from rfl] at h2
    have e2 := pipeline_wcount _ _ h2
    rw [show seriesOf (vh3 hr s p) "heart_rate" = hr from rfl] at hafter hbefore
    rw [show seriesOf (vh3 hr s p) "heart_rate" = hr from rfl,
      show seriesOf (vh3 hr s p) "spo2" = s from rfl,
      show seriesOf (vh3 hr s p) "pain_score" = p from rfl] at e1
    rw [show seriesOf (vh3 (hr ++ [v]) s p) "heart_rate" = hr ++ [v] from rfl,
      show seriesOf (vh3 (hr ++ [v]) s p) "spo2" = s from rfl,
      show seriesOf (vh3 (hr ++ [v]) s p) "pain_score" = p from rfl] at e2
    have hb : wContrib "heart_rate" hr = 0 := by
      cases hr with
      | nil => rfl
      | cons a as => simp [wContrib, hbefore]
    have ha : wContrib "heart_rate" (hr ++ [v]) = 1 := by
      cases hr with
      | nil =>
        simp only [List.nil_append] at hafter ⊢
        simp [wContrib, hafter]
      | cons a as =>
        simp only [List.cons_append] at hafter ⊢
        simp [wContrib, hafter]
    omega
  · rw [show updateMetric (vh3 hr s p) "spo2" v = vh3 hr (s ++ [v]) p from rfl] at h2
    have e2 := pipeline_wcount _ _ h2
    rw [show seriesOf (vh3 hr s p) "spo2" = s from rfl] at hafter hbefore
    rw [show seriesOf (vh3 hr s p) "heart_rate" = hr from rfl,
      show seriesOf (vh3 hr s p) "spo2" = s from rfl,
      show seriesOf (vh3 hr s p) "pain_score" = p from rfl] at e1
    rw [show seriesOf (vh3 hr (s ++ [v]) p) "heart_rate" = hr from rfl,
      show seriesOf (vh3 hr (s ++ [v]) p) "spo2" = s ++ [v] from rfl,
      show seriesOf (vh3 hr (s ++ [v]) p) "pain_score" = p from rfl] at e2
    have hb : wContrib "spo2" s = 0 := by
      cases s with
      | nil => rfl
      | cons a as => simp [wContrib, hbefore]
    have ha : wContrib "spo2" (s ++ [v]) = 1 := by
      cases s with
      | nil =>
        simp only [List.nil_append] at hafter ⊢
        simp [wContrib, hafter]
      | cons a as =>
        simp only [List.cons_append] at hafter ⊢
        simp [wContrib, hafter]
    omega
  · rw [show updateMetric (vh3 hr s p) "pain_score" v = vh3 hr s (p ++ [v]) from rfl] at h2
    have e2 := pipeline_wcount _ _ h2
    rw [show seriesOf (vh3 hr s p) "pain_score" = p from rfl] at hafter hbefore
    rw [show seriesOf (vh3 hr s p) "heart_rate" = hr from rfl,
      show seriesOf (vh3 hr s p) "spo2" = s from rfl,
      show seriesOf (vh3 hr s p) "pain_score" = p from rfl] at e1
    rw [show seriesOf (vh3 hr s (p ++ [v])) "heart_rate" = hr from rfl,
      show seriesOf (vh3 hr s (p ++ [v])) "spo2" = s from rfl,
      show seriesOf (vh3 hr s (p ++ [v])) "pain_score" = p ++ [v] from rfl] at e2
    have hb : wContrib "pain_score" p = 0 := by
      cases p with
      | nil => rfl
      | cons a as => simp [wContrib, hbefore]
    have ha : wContrib "pain_score" (p ++ [v]) = 1 := by
      cases p with
      | nil =>
        simp only [List.nil_append] at hafter ⊢
        simp [wContrib, hafter]
      | cons a as =>
        simp only [List.cons_append] at hafter ⊢
        simp [wContrib, hafter]
    omega

/-- Witness for the amended C7 at a concrete input: appending spo2 95 to
history `heart_rate=[75], spo2=[98], pain_score=[1]` (delta -3 crosses
the spo2 threshold) raises the worsening count from 0 to 1. -/
theorem C7_append_increases_worsening_witness :
    (patient_monitoring_pipeline_integrated (vh3 [75] [98] [1])).map
        TriageResult.worsening_count = Except.ok 0 ∧ (0 : Nat) < 1 :=
  ⟨rfl, C7_append_increases_worsening [75] [98] [1] "spo2" 95 0 1 (by decide) rfl rfl rfl rfl⟩

end Triage
